import Mathlib

/-!
Verification development for the KinoPy video builder
(`src/video_builder.py`, `src/main.py`).

The Python code is shallowly embedded:
* times and durations (Python floats) are modelled as exact rationals `ℚ`;
* pixel counts and coordinates (Python ints) are modelled as `ℤ`;
* `round` is modelled by `pyRound` (Python rounds half to even),
  `int(...)` applied to a real by `pyTrunc` (truncation toward zero);
* external raster services (Pillow drawing / MoviePy pixel work, which the
  code only calls through narrow interfaces) are abstracted as a record of
  opaque frame operations `RasterOps`, and the media decoder
  (`mp.VideoFileClip`) as an environment `MediaEnv`;
* fallible operations return the mutated-or-unchanged state together with
  an optional error (a raised Python exception leaves the builder's lists
  as they were at raise time).
-/

namespace KinoPy

/-- Python's `round` on an exact rational: round half to even
(banker's rounding), as `round(float)` does. -/
def pyRound (q : ℚ) : ℤ :=
  let f := ⌊q⌋
  let r := q - (f : ℚ)
  if r < 1 / 2 then f
  else if 1 / 2 < r then f + 1
  else if f % 2 = 0 then f else f + 1

theorem pyRound_le_ceil (q : ℚ) : pyRound q ≤ ⌈q⌉ := by
  unfold pyRound
  by_cases h1 : q - (⌊q⌋ : ℚ) < 1 / 2
  · simp only [h1, if_true]
    exact Int.floor_le_ceil q
  · have hlt : (⌊q⌋ : ℚ) < q := by
      have := Int.floor_le q
      by_contra hcon
      push_neg at hcon
      have : q = (⌊q⌋ : ℚ) := le_antisymm hcon this
      rw [this] at h1
      simp at h1
    have hstep : ⌊q⌋ + 1 ≤ ⌈q⌉ := by
      have : ⌊q⌋ < ⌈q⌉ := Int.lt_ceil.mpr hlt
      omega
    by_cases h2 : 1 / 2 < q - (⌊q⌋ : ℚ)
    · simp only [h1, h2, if_false, if_true]
      exact hstep
    · by_cases h3 : ⌊q⌋ % 2 = 0
      · simp only [h1, h2, h3, if_false, if_true]
        exact Int.floor_le_ceil q
      · simp only [h1, h2, h3, if_false]
        exact hstep

theorem pyRound_le_int (q : ℚ) (n : ℤ) (h : q ≤ (n : ℚ)) : pyRound q ≤ n :=
  le_trans (pyRound_le_ceil q) (Int.ceil_le.mpr h)

/-- Colors as the code passes them around: either a named color string or
an RGB triple. -/
inductive Color where
  | named (s : String)
  | rgb (r g b : ℤ)
deriving DecidableEq, Repr

/-! ## Letterbox geometry (`_resize_and_letterbox`, video_builder.py:100-125)

`scale = min(target_w / cw, target_h / ch)`,
`new_w = int(round(cw * scale))`, `new_h = int(round(ch * scale))`.
If `(new_w, new_h) == (target_w, target_h)` the resized clip is returned
unchanged; otherwise it is composited centered on a background of the
target size (MoviePy's `set_position("center")` places the content at
`((tw - nw) / 2, (th - nh) / 2)`, truncated to integers at blit time). -/

def lb_scale (cw ch tw th : ℤ) : ℚ :=
  min ((tw : ℚ) / (cw : ℚ)) ((th : ℚ) / (ch : ℚ))

def lb_new_w (cw ch tw th : ℤ) : ℤ := pyRound ((cw : ℚ) * lb_scale cw ch tw th)

def lb_new_h (cw ch tw th : ℤ) : ℤ := pyRound ((ch : ℚ) * lb_scale cw ch tw th)

/-- Shape of the letterbox result: either the resized content alone
(scaled size hits the target exactly) or the resized content centered on
an opaque background of the target size. -/
inductive LBResult where
  | plain (nw nh : ℤ)
  | boxed (tw th nw nh ox oy : ℤ)
deriving DecidableEq, Repr

def LBResult.outSize : LBResult → ℤ × ℤ
  | .plain nw nh => (nw, nh)
  | .boxed tw th _ _ _ _ => (tw, th)

def letterbox (cw ch tw th : ℤ) : LBResult :=
  let nw := lb_new_w cw ch tw th
  let nh := lb_new_h cw ch tw th
  if nw = tw ∧ nh = th then .plain nw nh
  else .boxed tw th nw nh (Int.tdiv (tw - nw) 2) (Int.tdiv (th - nh) 2)

theorem letterbox_eq_plain {cw ch tw th nw nh : ℤ}
    (h : letterbox cw ch tw th = .plain nw nh) : nw = tw ∧ nh = th := by
  simp only [letterbox] at h
  split at h
  · rename_i hg
    injection h with h1 h2
    omega
  · exact absurd h (by simp)

theorem letterbox_eq_boxed {cw ch tw th tw' th' nw nh ox oy : ℤ}
    (h : letterbox cw ch tw th = .boxed tw' th' nw nh ox oy) :
    tw' = tw ∧ th' = th := by
  simp only [letterbox] at h
  split at h
  · exact absurd h (by simp)
  · injection h with h1 h2
    omega

theorem letterbox_outSize (cw ch tw th : ℤ) :
    (letterbox cw ch tw th).outSize = (tw, th) := by
  rcases h : letterbox cw ch tw th with ⟨nw, nh⟩ | ⟨tw', th', nw, nh, ox, oy⟩
  · obtain ⟨h1, h2⟩ := letterbox_eq_plain h
    simp [LBResult.outSize, h1, h2]
  · obtain ⟨h1, h2⟩ := letterbox_eq_boxed h
    simp [LBResult.outSize, h1, h2]

theorem lb_new_w_le (cw ch tw th : ℤ) (hcw : 0 < cw) (hch : 0 < ch) :
    lb_new_w cw ch tw th ≤ tw := by
  have hcw' : (0 : ℚ) < (cw : ℚ) := by exact_mod_cast hcw
  have hch' : (0 : ℚ) < (ch : ℚ) := by exact_mod_cast hch
  have hsle : lb_scale cw ch tw th ≤ (tw : ℚ) / (cw : ℚ) := min_le_left _ _
  have hmul : (cw : ℚ) * lb_scale cw ch tw th ≤ (cw : ℚ) * ((tw : ℚ) / (cw : ℚ)) :=
    mul_le_mul_of_nonneg_left hsle hcw'.le
  have hcancel : (cw : ℚ) * ((tw : ℚ) / (cw : ℚ)) = (tw : ℚ) := by
    field_simp
  exact pyRound_le_int _ _ (by rw [hcancel] at hmul; exact hmul)

theorem lb_new_h_le (cw ch tw th : ℤ) (hcw : 0 < cw) (hch : 0 < ch) :
    lb_new_h cw ch tw th ≤ th := by
  have hcw' : (0 : ℚ) < (cw : ℚ) := by exact_mod_cast hcw
  have hch' : (0 : ℚ) < (ch : ℚ) := by exact_mod_cast hch
  have hsle : lb_scale cw ch tw th ≤ (th : ℚ) / (ch : ℚ) := min_le_right _ _
  have hmul : (ch : ℚ) * lb_scale cw ch tw th ≤ (ch : ℚ) * ((th : ℚ) / (ch : ℚ)) :=
    mul_le_mul_of_nonneg_left hsle hch'.le
  have hcancel : (ch : ℚ) * ((th : ℚ) / (ch : ℚ)) = (th : ℚ) := by
    field_simp
  exact pyRound_le_int _ _ (by rw [hcancel] at hmul; exact hmul)

/-! ## Text measurement (`_draw_text_image_tight`, video_builder.py:78-97)

The bounding box returned by Pillow's `multiline_textbbox` (an external
text-measurement service) is abstract; the function under verification is
the size arithmetic around it: each measured dimension is floored at 1 and
`2 * padding` is added on each axis. -/

structure BBox where
  left : ℤ
  top : ℤ
  right : ℤ
  bottom : ℤ
deriving DecidableEq, Repr

def tight_text_w (b : BBox) : ℤ := max 1 (b.right - b.left)

def tight_text_h (b : BBox) : ℤ := max 1 (b.bottom - b.top)

def tight_text_size (b : BBox) (padding : ℤ) : ℤ × ℤ :=
  (tight_text_w b + 2 * padding, tight_text_h b + 2 * padding)

/-! ## Overlay helper classes (`Arrow`, `Text`, video_builder.py:131-197) -/

/-- The `Arrow` helper class (video_builder.py:131-148). -/
structure Arrow where
  start_pos : ℤ × ℤ
  end_pos : ℤ × ℤ
  color : Color := .named "yellow"
  stroke_width : ℤ := 5
  head_length : ℤ := 24
  head_angle_deg : ℚ := 30
deriving DecidableEq, Repr

/-- The `Text` overlay helper class (video_builder.py:180-193). -/
structure Text where
  text : String
  fontsize : ℤ := 50
  color : Color := .named "white"
  padding : ℤ := 8
deriving DecidableEq, Repr

/-! ## The builder's clip model

A MoviePy clip, as far as the builder manipulates one: a pixel size, a
duration, a frame function, and a tag recording where its pixels came
from.  Frames themselves live in an abstract type `F`; all pixel-level
work (Pillow drawing, MoviePy resizing/compositing/fading) is delegated
to a `RasterOps F` record of opaque operations, mirroring how the Python
core calls those services through narrow interfaces. -/

inductive SrcTag (F : Type) where
  | textScreen (text : String)
  | fileClip (path : String)
  | freezeOf (frame : F)
  | rawMedia

structure VClip (F : Type) where
  size : ℤ × ℤ
  duration : ℚ
  frameAt : ℚ → F
  src : SrcTag F

/-- External raster services: Pillow image drawing and MoviePy pixel
transforms, abstracted. -/
structure RasterOps (F : Type) where
  textScreenImage : ℤ × ℤ → String → ℤ → Color → Color → F
  measureText : String → ℤ → BBox
  tightTextImage : String → ℤ → Color → ℤ → F
  arrowImage : ℤ × ℤ → Arrow → F
  resizeFrame : F → ℤ × ℤ → F
  composeLB : ℤ × ℤ → Color → F → ℤ × ℤ → ℤ × ℤ → F
  fadeInF : ℚ → ℚ → F → F
  fadeOutF : ℚ → ℚ → ℚ → F → F

/-- The media decode service (`mp.VideoFileClip`): a path either yields a
clip or fails. -/
def MediaEnv (F : Type) := String → Option (VClip F)

/-- `_resize_and_letterbox` at the clip level (video_builder.py:100-125):
geometry from `letterbox`, pixels delegated to the raster services.
Duration is preserved; in the plain case the resized clip is returned
with no compositing.  (The audio pass-through is not modelled; no claim
concerns audio.) -/
def resize_and_letterbox (ops : RasterOps F) (clip : VClip F)
    (target_size : ℤ × ℤ) (bg_color : Color) : VClip F :=
  match letterbox clip.size.1 clip.size.2 target_size.1 target_size.2 with
  | .plain nw nh =>
      { size := (nw, nh), duration := clip.duration,
        frameAt := fun t => ops.resizeFrame (clip.frameAt t) (nw, nh),
        src := clip.src }
  | .boxed tw th nw nh ox oy =>
      { size := (tw, th), duration := clip.duration,
        frameAt := fun t =>
          ops.composeLB (tw, th) bg_color
            (ops.resizeFrame (clip.frameAt t) (nw, nh)) (nw, nh) (ox, oy),
        src := clip.src }

theorem resize_and_letterbox_size (ops : RasterOps F) (clip : VClip F)
    (target_size : ℤ × ℤ) (bg_color : Color) :
    (resize_and_letterbox ops clip target_size bg_color).size = target_size := by
  unfold resize_and_letterbox
  cases h : letterbox clip.size.1 clip.size.2 target_size.1 target_size.2 with
  | plain nw nh =>
      obtain ⟨h1, h2⟩ := letterbox_eq_plain h
      dsimp only
      rw [h1, h2]
  | boxed tw th nw nh ox oy =>
      obtain ⟨h1, h2⟩ := letterbox_eq_boxed h
      dsimp only
      rw [h1, h2]

theorem resize_and_letterbox_duration (ops : RasterOps F) (clip : VClip F)
    (target_size : ℤ × ℤ) (bg_color : Color) :
    (resize_and_letterbox ops clip target_size bg_color).duration = clip.duration := by
  unfold resize_and_letterbox
  cases h : letterbox clip.size.1 clip.size.2 target_size.1 target_size.2 <;> rfl

theorem resize_and_letterbox_src (ops : RasterOps F) (clip : VClip F)
    (target_size : ℤ × ℤ) (bg_color : Color) :
    (resize_and_letterbox ops clip target_size bg_color).src = clip.src := by
  unfold resize_and_letterbox
  cases h : letterbox clip.size.1 clip.size.2 target_size.1 target_size.2 <;> rfl

theorem resize_and_letterbox_still (ops : RasterOps F) (clip : VClip F)
    (target_size : ℤ × ℤ) (bg_color : Color)
    (hstill : ∀ t t', clip.frameAt t = clip.frameAt t') (t t' : ℚ) :
    (resize_and_letterbox ops clip target_size bg_color).frameAt t =
      (resize_and_letterbox ops clip target_size bg_color).frameAt t' := by
  unfold resize_and_letterbox
  cases h : letterbox clip.size.1 clip.size.2 target_size.1 target_size.2 <;>
    dsimp only <;> rw [hstill t t']

/-! ## Overlay position tokens

`position` in `add_overlay` is either a bare string (e.g. `"center"`) or
a pair of per-axis tokens, each `"center"` or an integer. -/

inductive AxisTok where
  | center
  | px (n : ℤ)
deriving DecidableEq, Repr

inductive Position where
  | str (s : String)
  | pair (x y : AxisTok)
deriving DecidableEq, Repr

/-! ## Builder state and errors -/

/-- Errors raised by the build phase.  The Python code raises
`ValueError("You must add a video clip before adding a freeze frame.")`
(the spec's `EmptyTimelineError`), `TypeError("Unsupported overlay object
type.")` (the spec's `UnsupportedOverlayTypeError`), and surfaces decoder
failures as the spec's `MediaIOError`. -/
inductive BuildError where
  | emptyTimelineError
  | unsupportedOverlayTypeError
  | mediaIOError
deriving DecidableEq, Repr

inductive OverlayKind where
  | arrowK (a : Arrow)
  | textK (t : Text)
deriving DecidableEq, Repr

/-- What `add_overlay` stores: the produced overlay clip (its pixels, its
size) together with the timing and the position rule applied to it. -/
structure OverlayEntry (F : Type) where
  kind : OverlayKind
  frame : F
  clipSize : ℤ × ℤ
  start_time : ℚ
  duration : ℚ
  position : Position

structure BuilderState (F : Type) where
  output_path : String
  size : ℤ × ℤ
  fps : ℤ
  timeline_clips : List (VClip F)
  overlay_clips : List (OverlayEntry F)

def init_state (F : Type) (output_path : String) (size : ℤ × ℤ) (fps : ℤ) :
    BuilderState F :=
  { output_path := output_path, size := size, fps := fps,
    timeline_clips := [], overlay_clips := [] }

/-! ## Timeline methods (video_builder.py:212-266) -/

/-- `add_text_screen`: a full-canvas text image held for `duration`. -/
def add_text_screen (ops : RasterOps F) (st : BuilderState F) (text : String)
    (duration : ℚ) (fontsize : ℤ) (color bg_color : Color) : BuilderState F :=
  let clip : VClip F :=
    { size := st.size, duration := duration,
      frameAt := fun _ => ops.textScreenImage st.size text fontsize color bg_color,
      src := .textScreen text }
  { st with timeline_clips := st.timeline_clips ++ [clip] }

/-- `add_clip`: decode, trim to `[start_time, end_time)` (or to the end),
conform through the letterbox resizer, then apply fades when positive. -/
def add_clip (ops : RasterOps F) (env : MediaEnv F) (st : BuilderState F)
    (filepath : String) (start_time : ℚ) (end_time : Option ℚ)
    (fade_in fade_out : ℚ) (letterbox_bg : Color) :
    BuilderState F × Option BuildError :=
  match env filepath with
  | none => (st, some .mediaIOError)
  | some base_clip =>
      let sub : VClip F :=
        { size := base_clip.size,
          duration := match end_time with
            | some e => e - start_time
            | none => base_clip.duration - start_time,
          frameAt := fun t => base_clip.frameAt (start_time + t),
          src := base_clip.src }
      let conformed := resize_and_letterbox ops sub st.size letterbox_bg
      let faded_in :=
        if 0 < fade_in then
          { conformed with frameAt := fun t => ops.fadeInF fade_in t (conformed.frameAt t) }
        else conformed
      let faded :=
        if 0 < fade_out then
          { faded_in with
            frameAt := fun t => ops.fadeOutF fade_out faded_in.duration t (faded_in.frameAt t) }
        else faded_in
      ({ st with timeline_clips := st.timeline_clips ++ [faded] }, none)

/-- `add_freeze_frame` (video_builder.py:251-266): sample a frame of the
last timeline clip at
`max(0, min(at_time, max(0, prev.duration - 1e-3)))`, hold it for
`duration`, and conform the still to canvas size. -/
def add_freeze_frame (ops : RasterOps F) (st : BuilderState F)
    (duration at_time : ℚ) : BuilderState F × Option BuildError :=
  match st.timeline_clips.getLast? with
  | none => (st, some .emptyTimelineError)
  | some previous_clip =>
      let sample_t := max 0 (min at_time (max 0 (previous_clip.duration - 1 / 1000)))
      let frame := previous_clip.frameAt sample_t
      let freeze_clip : VClip F :=
        { size := previous_clip.size, duration := duration,
          frameAt := fun _ => frame, src := .freezeOf frame }
      let conformed := resize_and_letterbox ops freeze_clip st.size (Color.rgb 0 0 0)
      ({ st with timeline_clips := st.timeline_clips ++ [conformed] }, none)

/-! ## Overlays (`add_overlay`, video_builder.py:269-288)

The dynamic `isinstance` dispatch on the overlay object is modelled with
a closed sum: an `Arrow`, a `Text`, or any other Python object
(`otherObj`), which raises `TypeError`. -/

inductive OverlayObj where
  | arrowObj (a : Arrow)
  | textObj (t : Text)
  | otherObj

def add_overlay (ops : RasterOps F) (st : BuilderState F) (overlay_obj : OverlayObj)
    (start_time duration : ℚ) (position : Position) :
    BuilderState F × Option BuildError :=
  match overlay_obj with
  | .arrowObj a =>
      let entry : OverlayEntry F :=
        { kind := .arrowK a, frame := ops.arrowImage st.size a,
          clipSize := st.size, start_time := start_time,
          duration := duration, position := position }
      ({ st with overlay_clips := st.overlay_clips ++ [entry] }, none)
  | .textObj tx =>
      let entry : OverlayEntry F :=
        { kind := .textK tx,
          frame := ops.tightTextImage tx.text tx.fontsize tx.color tx.padding,
          clipSize := tight_text_size (ops.measureText tx.text tx.fontsize) tx.padding,
          start_time := start_time, duration := duration, position := position }
      ({ st with overlay_clips := st.overlay_clips ++ [entry] }, none)
  | .otherObj => (st, some .unsupportedOverlayTypeError)

/-! ## Render (video_builder.py:291-315)

An empty timeline is a soft no-op: no output, no exception.  Otherwise the
timeline clips are concatenated in order (`concatenate_videoclips`,
modelled by `concat_duration` / `concat_frame_at` below) and handed with
the overlays to the external encoder. -/

structure RenderOutput (F : Type) where
  output_path : String
  size : ℤ × ℤ
  fps : ℤ
  timeline_clips : List (VClip F)
  overlay_clips : List (OverlayEntry F)

def render (st : BuilderState F) : Except BuildError (Option (RenderOutput F)) :=
  if st.timeline_clips.isEmpty then .ok none
  else .ok (some
    { output_path := st.output_path, size := st.size, fps := st.fps,
      timeline_clips := st.timeline_clips, overlay_clips := st.overlay_clips })

/-- Total duration of the concatenated timeline. -/
def concat_duration : List (VClip F) → ℚ
  | [] => 0
  | c :: rest => c.duration + concat_duration rest

/-- Frame of the concatenated timeline at absolute time `t`: the frame of
whichever entry's local time window contains `t`. -/
def concat_frame_at : List (VClip F) → ℚ → Option F
  | [], _ => none
  | c :: rest, t =>
      if t < c.duration then some (c.frameAt t)
      else concat_frame_at rest (t - c.duration)

/-- Absolute start time of entry `i`: the sum of the durations of entries
`0..i-1`. -/
def start_at (l : List (VClip F)) (i : ℕ) : ℚ :=
  ((l.take i).map (fun c => c.duration)).sum

theorem concat_duration_eq_sum (l : List (VClip F)) :
    concat_duration l = (l.map (fun c => c.duration)).sum := by
  induction l with
  | nil => simp [concat_duration]
  | cons c rest ih => simp [concat_duration, ih]

theorem start_at_zero (l : List (VClip F)) : start_at l 0 = 0 := by
  simp [start_at]

theorem start_at_succ_cons (c : VClip F) (l : List (VClip F)) (i : ℕ) :
    start_at (c :: l) (i + 1) = c.duration + start_at l i := by
  simp [start_at, List.take_succ_cons]

theorem start_at_nonneg (l : List (VClip F))
    (hnn : ∀ c ∈ l, 0 ≤ c.duration) (i : ℕ) : 0 ≤ start_at l i := by
  apply List.sum_nonneg
  intro x hx
  obtain ⟨c, hc, rfl⟩ := List.mem_map.mp hx
  exact hnn c (List.take_subset i l hc)

/-- The concatenated timeline plays entry `i` during its window
`[start_at i, start_at i + duration i)`, at the matching local time. -/
theorem concat_window (l : List (VClip F))
    (hnn : ∀ c ∈ l, 0 ≤ c.duration) (i : ℕ) (hi : i < l.length) (t : ℚ)
    (h1 : start_at l i ≤ t)
    (h2 : t < start_at l i + (l.get ⟨i, hi⟩).duration) :
    concat_frame_at l t = some ((l.get ⟨i, hi⟩).frameAt (t - start_at l i)) := by
  induction l generalizing i t with
  | nil => exact absurd hi (by simp)
  | cons c rest ih =>
      cases i with
      | zero =>
          rw [start_at_zero] at h1 h2 ⊢
          have hget : (c :: rest).get ⟨0, hi⟩ = c := rfl
          rw [hget] at h2 ⊢
          have hlt : t < c.duration := by linarith
          simp [concat_frame_at, hlt]
      | succ i =>
          have hnn' : ∀ x ∈ rest, 0 ≤ x.duration :=
            fun x hx => hnn x (List.mem_cons_of_mem _ hx)
          have hsr : 0 ≤ start_at rest i := start_at_nonneg rest hnn' i
          rw [start_at_succ_cons] at h1 h2 ⊢
          have hget : (c :: rest).get ⟨i + 1, hi⟩ = rest.get ⟨i, by simpa using hi⟩ :=
            rfl
          rw [hget] at h2 ⊢
          have hge : ¬ t < c.duration := by
            push_neg
            linarith
          have hrec := ih hnn' i (by simpa using hi) (t - c.duration)
            (by linarith) (by linarith)
          rw [show t - (c.duration + start_at rest i) =
            t - c.duration - start_at rest i by ring]
          simpa [concat_frame_at, hge] using hrec

/-! ## Sequences of appends (for the timeline-order property)

The three timeline-append operations of the builder, applied in sequence
the way a caller would; a raised exception aborts the sequence with the
state as it was at raise time. -/

inductive BuildOp where
  | textScreenOp (text : String) (duration : ℚ) (fontsize : ℤ) (color bg_color : Color)
  | clipOp (filepath : String) (start_time : ℚ) (end_time : Option ℚ)
      (fade_in fade_out : ℚ) (letterbox_bg : Color)
  | freezeOp (duration at_time : ℚ)

def apply_op (ops : RasterOps F) (env : MediaEnv F) :
    BuildOp → BuilderState F → BuilderState F × Option BuildError
  | .textScreenOp t d fs c bg, st => (add_text_screen ops st t d fs c bg, none)
  | .clipOp p s e fi fo bg, st => add_clip ops env st p s e fi fo bg
  | .freezeOp d a, st => add_freeze_frame ops st d a

def apply_ops (ops : RasterOps F) (env : MediaEnv F) :
    List BuildOp → BuilderState F → BuilderState F × Option BuildError
  | [], st => (st, none)
  | op :: rest, st =>
      match apply_op ops env op st with
      | (st', none) => apply_ops ops env rest st'
      | (st', some e) => (st', some e)

theorem apply_op_extends (ops : RasterOps F) (env : MediaEnv F)
    (op : BuildOp) (st st' : BuilderState F)
    (h : apply_op ops env op st = (st', none)) :
    ∃ r, st'.timeline_clips = st.timeline_clips ++ r := by
  cases op with
  | textScreenOp t d fs c bg =>
      injection h with h1 h2
      exact ⟨_, by rw [← h1]; rfl⟩
  | clipOp p s e fi fo bg =>
      simp only [apply_op, add_clip] at h
      cases henv : env p with
      | none =>
          rw [henv] at h
          simp at h
      | some base =>
          rw [henv] at h
          injection h with h1 h2
          exact ⟨_, by rw [← h1]⟩
  | freezeOp d a =>
      simp only [apply_op, add_freeze_frame] at h
      cases hlast : st.timeline_clips.getLast? with
      | none =>
          rw [hlast] at h
          simp at h
      | some prev =>
          rw [hlast] at h
          injection h with h1 h2
          exact ⟨_, by rw [← h1]⟩

theorem apply_ops_extends (ops : RasterOps F) (env : MediaEnv F)
    (bops : List BuildOp) (st st' : BuilderState F)
    (h : apply_ops ops env bops st = (st', none)) :
    ∃ r, st'.timeline_clips = st.timeline_clips ++ r := by
  induction bops generalizing st with
  | nil =>
      injection h with h1 h2
      exact ⟨[], by rw [← h1]; simp⟩
  | cons op rest ih =>
      simp only [apply_ops] at h
      cases hop : apply_op ops env op st with
      | mk st1 err =>
          cases err with
          | none =>
              rw [hop] at h
              obtain ⟨r1, hr1⟩ := apply_op_extends ops env op st st1 hop
              obtain ⟨r2, hr2⟩ := ih st1 h
              exact ⟨r1 ++ r2, by rw [hr2, hr1, List.append_assoc]⟩
          | some e =>
              rw [hop] at h
              simp at h

/-- The clamp the spec describes for the freeze-frame sample time. -/
def clampQ (x lo hi : ℚ) : ℚ := max lo (min x hi)

/-- The code's `max(0, min(at_time, max(0, d - ε)))` equals
`clamp(at_time, 0, d - ε)` for every `at_time` and `d`. -/
theorem freeze_sample_eq_clamp (at_time d : ℚ) :
    max 0 (min at_time (max 0 (d - 1 / 1000))) =
      clampQ at_time 0 (d - 1 / 1000) := by
  unfold clampQ
  rcases le_total (d - 1 / 1000) 0 with hd | hd
  · rw [max_eq_left hd,
      max_eq_left (min_le_right at_time (0 : ℚ)),
      max_eq_left (le_trans (min_le_right at_time (d - 1 / 1000)) hd)]
  · rw [max_eq_right hd]

/-! ## Arrow geometry (`Arrow.as_clip`, video_builder.py:150-177)

The drawing is real-valued trigonometry truncated to integer pixel
coordinates.  `math.atan2` is embedded as the standard piecewise `arctan`
definition; Python's `int(...)` on a real is truncation toward zero. -/

/-- Python's `int(x)` for a real `x`: truncation toward zero. -/
noncomputable def pyTrunc (x : ℝ) : ℤ := if 0 ≤ x then ⌊x⌋ else -⌊-x⌋

/-- `math.atan2 y x`. -/
noncomputable def atan2 (y x : ℝ) : ℝ :=
  if 0 < x then Real.arctan (y / x)
  else if x < 0 ∧ 0 ≤ y then Real.arctan (y / x) + Real.pi
  else if x < 0 then Real.arctan (y / x) - Real.pi
  else if 0 < y then Real.pi / 2
  else if y < 0 then -(Real.pi / 2)
  else 0

namespace Arrow

noncomputable def dx (a : Arrow) : ℝ := ((a.end_pos.1 - a.start_pos.1 : ℤ) : ℝ)

noncomputable def dy (a : Arrow) : ℝ := ((a.end_pos.2 - a.start_pos.2 : ℤ) : ℝ)

/-- `angle = math.atan2(dy, dx)`. -/
noncomputable def angle (a : Arrow) : ℝ := atan2 (dy a) (dx a)

/-- `theta = math.radians(head_angle_deg)`. -/
noncomputable def theta (a : Arrow) : ℝ := ((a.head_angle_deg : ℚ) : ℝ) * Real.pi / 180

noncomputable def left_angle (a : Arrow) : ℝ := angle a + Real.pi - theta a

noncomputable def right_angle (a : Arrow) : ℝ := angle a + Real.pi + theta a

noncomputable def left_point (a : Arrow) : ℤ × ℤ :=
  (pyTrunc ((a.end_pos.1 : ℝ) + (a.head_length : ℝ) * Real.cos (left_angle a)),
   pyTrunc ((a.end_pos.2 : ℝ) + (a.head_length : ℝ) * Real.sin (left_angle a)))

noncomputable def right_point (a : Arrow) : ℤ × ℤ :=
  (pyTrunc ((a.end_pos.1 : ℝ) + (a.head_length : ℝ) * Real.cos (right_angle a)),
   pyTrunc ((a.end_pos.2 : ℝ) + (a.head_length : ℝ) * Real.sin (right_angle a)))

end Arrow

/-- A Pillow drawing command issued by `Arrow.as_clip`. -/
inductive DrawCmd where
  | lineCmd (p q : ℤ × ℤ) (color : Color) (width : ℤ)
  | polygonCmd (pts : List (ℤ × ℤ)) (color : Color)

/-- The two drawing commands of `Arrow.as_clip`: the shaft from
`start_pos` to `end_pos`, then the arrowhead triangle anchored at
`end_pos`. -/
noncomputable def arrow_draw_cmds (a : Arrow) : List DrawCmd :=
  [.lineCmd a.start_pos a.end_pos a.color a.stroke_width,
   .polygonCmd [a.end_pos, a.left_point, a.right_point] a.color]

/-! ## The CLI driver (`src/main.py`)

`argparse` itself is external; its already-typed result is the `Args`
record below (field names and defaults follow `build_parser`).  The small
string parsers `parse_size`, `parse_position`, `parse_arrow` and the body
of `main` are part of the repository and are embedded.  Python string
primitives are modelled on character lists: `str.split(sep)` for a
one-character separator as `strSplit`, `str.strip()` as `trimChars`,
`str.lower()` as `lowerChars`, and `int(...)` on a string for optionally
signed decimal digit strings. -/

def strSplit (sep : Char) : List Char → List (List Char)
  | [] => [[]]
  | c :: rest =>
      if c = sep then [] :: strSplit sep rest
      else
        match strSplit sep rest with
        | [] => [[c]]
        | g :: gs => (c :: g) :: gs

def trimChars (cs : List Char) : List Char :=
  ((cs.dropWhile Char.isWhitespace).reverse.dropWhile Char.isWhitespace).reverse

def lowerChars (cs : List Char) : List Char := cs.map Char.toLower

def parseNatDigits (cs : List Char) : Option ℕ :=
  if cs = [] then none
  else if cs.all (fun c => c.isDigit) then
    some (cs.foldl (fun acc c => 10 * acc + (c.toNat - 48)) 0)
  else none

/-- Python `int(s)`: strip, optional sign, decimal digits. -/
def parseIntChars (cs : List Char) : Option ℤ :=
  match trimChars cs with
  | [] => none
  | c :: rest =>
      if c = '-' then (parseNatDigits rest).map (fun n => -(n : ℤ))
      else if c = '+' then (parseNatDigits rest).map (fun n => (n : ℤ))
      else (parseNatDigits (c :: rest)).map (fun n => (n : ℤ))

/-- `parse_size` (main.py:9-14): `"WxH"`, any failure falls back to
`(1920, 1080)`. -/
def parse_size (size_str : String) : ℤ × ℤ :=
  match strSplit 'x' (lowerChars size_str.data) with
  | [w_str, h_str] =>
      match parseIntChars w_str, parseIntChars h_str with
      | some w, some h => (w, h)
      | _, _ => (1920, 1080)
  | _ => (1920, 1080)

/-- `parse_position` (main.py:17-38): malformed tokens fall back to
`center`. -/
def parse_position (pos_str : String) : Position :=
  if ¬ pos_str.data.contains ',' then
    let token := trimChars pos_str.data
    if token = "center".data then .str "center"
    else
      match parseIntChars token with
      | some n => .pair (.px n) (.px n)
      | none => .str "center"
  else
    match strSplit ',' pos_str.data with
    | [] => .str "center"
    | x_str :: rest =>
        let y_str := List.intercalate [','] rest
        let parse_token : List Char → AxisTok := fun tok =>
          if tok = "center".data then .center
          else
            match parseIntChars tok with
            | some n => .px n
            | none => .center
        .pair (parse_token (trimChars x_str)) (parse_token (trimChars y_str))

def parseInts : List (List Char) → Option (List ℤ)
  | [] => some []
  | p :: rest =>
      match parseIntChars p, parseInts rest with
      | some v, some vs => some (v :: vs)
      | _, _ => none

/-- `parse_arrow` (main.py:41-47): `"x1,y1,x2,y2"`; anything that is not
exactly 4 integers raises `ValueError`. -/
def parse_arrow (arrow_str : String) : Except String ((ℤ × ℤ) × (ℤ × ℤ)) :=
  match (strSplit ',' arrow_str.data).map trimChars with
  | [a, b, c, d] =>
      match parseInts [a, b, c, d] with
      | some [x1, y1, x2, y2] => .ok ((x1, y1), (x2, y2))
      | _ => .error "invalid literal for int() with base 10"
  | _ => .error "--arrow must be in the form x1,y1,x2,y2"

/-- A malformed arrow coordinate argument: not exactly 4 comma-separated
fields, or a field that is not an integer literal. -/
def malformedArrow (s : String) : Prop :=
  ((strSplit ',' s.data).map trimChars).length ≠ 4 ∨
    ∃ p ∈ (strSplit ',' s.data).map trimChars, parseIntChars p = none

theorem parseInts_eq_none_of_mem (l : List (List Char)) (p : List Char)
    (hp : p ∈ l) (hnone : parseIntChars p = none) : parseInts l = none := by
  induction l with
  | nil => cases hp
  | cons q rest ih =>
      rcases List.mem_cons.mp hp with rfl | hmem
      · simp [parseInts, hnone]
      · cases hq : parseIntChars q <;> simp [parseInts, hq, ih hmem]

theorem parse_arrow_error_of_malformed (s : String) (h : malformedArrow s) :
    ∃ m, parse_arrow s = .error m := by
  rcases hl : (strSplit ',' s.data).map trimChars with _ | ⟨a, _ | ⟨b, _ | ⟨c, _ | ⟨d, _ | ⟨e, tl⟩⟩⟩⟩⟩
  case nil =>
    exact ⟨"--arrow must be in the form x1,y1,x2,y2", by simp [parse_arrow, hl]⟩
  case cons.nil =>
    exact ⟨"--arrow must be in the form x1,y1,x2,y2", by simp [parse_arrow, hl]⟩
  case cons.cons.nil =>
    exact ⟨"--arrow must be in the form x1,y1,x2,y2", by simp [parse_arrow, hl]⟩
  case cons.cons.cons.nil =>
    exact ⟨"--arrow must be in the form x1,y1,x2,y2", by simp [parse_arrow, hl]⟩
  case cons.cons.cons.cons.cons =>
    exact ⟨"--arrow must be in the form x1,y1,x2,y2", by simp [parse_arrow, hl]⟩
  case cons.cons.cons.cons.nil =>
    rcases h with hlen | ⟨p, hp, hpnone⟩
    · rw [hl] at hlen
      simp at hlen
    · rw [hl] at hp
      have : parseInts [a, b, c, d] = none :=
        parseInts_eq_none_of_mem _ p hp hpnone
      exact ⟨"invalid literal for int() with base 10", by simp [parse_arrow, hl, this]⟩

/-! ## The `main` driver (main.py:99-155)

`argparse` output as a typed record (field names and defaults follow
`build_parser`, main.py:50-96). -/

structure Args where
  output : String := "output.mp4"
  size : String := "1920x1080"
  fps : ℤ := 30
  text : Option String := none
  title_duration : ℚ := 4
  title_fontsize : ℤ := 70
  title_color : String := "white"
  title_bg : String := "black"
  clip : Option String := none
  clip_start : ℚ := 0
  clip_end : Option ℚ := none
  fade_in : ℚ := 0
  fade_out : ℚ := 0
  freeze_at : Option ℚ := none
  freeze_duration : Option ℚ := none
  overlay_text : Option String := none
  overlay_start : Option ℚ := none
  overlay_duration : ℚ := 4
  overlay_position : String := "center,center"
  overlay_fontsize : ℤ := 50
  overlay_color : String := "white"
  arrow : Option String := none
  arrow_start : Option ℚ := none
  arrow_duration : ℚ := 4
  arrow_color : String := "yellow"
  arrow_width : ℤ := 5

/-- Python truthiness of an optional string (`if args.text:`): present and
non-empty. -/
def optTruthy : Option String → Bool
  | none => false
  | some s => !s.isEmpty

/-- The build steps `main` can execute, in the order the code attempts
them (title screen, main clip, freeze frame, text overlay, arrow
overlay). -/
inductive StepTag where
  | textScreen
  | clipStep
  | freezeFrame
  | textOverlay
  | arrowOverlay
deriving DecidableEq, Repr

inductive MainError where
  | parseError (msg : String)
  | buildError (e : BuildError)
deriving DecidableEq, Repr

/-- Run one conditional build step: skipped when its CLI condition is
false, recorded in the step trace when it runs, aborting the run when it
raises. -/
def step_run (cond : Bool) (tag : StepTag)
    (f : BuilderState F → BuilderState F × Option BuildError)
    (acc : List StepTag × Except MainError (BuilderState F)) :
    List StepTag × Except MainError (BuilderState F) :=
  match acc with
  | (steps, .error e) => (steps, .error e)
  | (steps, .ok st) =>
      if cond then
        match f st with
        | (st', none) => (steps ++ [tag], .ok st')
        | (_, some e) => (steps, .error (.buildError e))
      else (steps, .ok st)

/-- The body of `main` up to (but not including) the arrow-overlay block:
builder construction, optional title screen, optional main clip, optional
freeze frame, optional text overlay (main.py:99-139). -/
def main_pre_arrow (ops : RasterOps F) (env : MediaEnv F) (args : Args) :
    List StepTag × Except MainError (BuilderState F) :=
  let st0 := init_state F args.output (parse_size args.size) args.fps
  step_run (optTruthy args.overlay_text && args.overlay_start.isSome) .textOverlay
    (fun st => add_overlay ops st
      (.textObj { text := args.overlay_text.getD "",
                  fontsize := args.overlay_fontsize,
                  color := .named args.overlay_color, padding := 8 })
      (args.overlay_start.getD 0) args.overlay_duration
      (parse_position args.overlay_position))
    (step_run (args.freeze_at.isSome && args.freeze_duration.isSome) .freezeFrame
      (fun st => add_freeze_frame ops st (args.freeze_duration.getD 0)
        (args.freeze_at.getD 0))
      (step_run (optTruthy args.clip) .clipStep
        (fun st => add_clip ops env st (args.clip.getD "") args.clip_start
          args.clip_end args.fade_in args.fade_out (Color.rgb 0 0 0))
        (step_run (optTruthy args.text) .textScreen
          (fun st => (add_text_screen ops st (args.text.getD "")
            args.title_duration args.title_fontsize
            (.named args.title_color) (.named args.title_bg), none))
          ([], .ok st0))))

/-- The result of a full `main` run: the build steps that executed, and
either an error or the final builder state with the render result. -/
structure MainRun (F : Type) where
  steps : List StepTag
  outcome : Except MainError (BuilderState F × Option (RenderOutput F))

def finish_run (steps : List StepTag) (st : BuilderState F) : MainRun F :=
  match render st with
  | .ok o => ⟨steps, .ok (st, o)⟩
  | .error e => ⟨steps, .error (.buildError e)⟩

/-- The whole of `main` (main.py:99-155): the pre-arrow phase, then the
arrow-overlay block (which parses `--arrow` only here, forcing the
overlay position to `(0, 0)`), then `render`. -/
def run_main (ops : RasterOps F) (env : MediaEnv F) (args : Args) : MainRun F :=
  match main_pre_arrow ops env args with
  | (steps, .error e) => ⟨steps, .error e⟩
  | (steps, .ok st) =>
      match args.arrow, args.arrow_start with
      | some arrow_str, some arrow_start =>
          if arrow_str.isEmpty then finish_run steps st
          else
            match parse_arrow arrow_str with
            | .error m => ⟨steps, .error (.parseError m)⟩
            | .ok (start_pt, end_pt) =>
                match add_overlay ops st
                  (.arrowObj { start_pos := start_pt, end_pos := end_pt,
                               color := .named args.arrow_color,
                               stroke_width := args.arrow_width,
                               head_length := 24, head_angle_deg := 30 })
                  arrow_start args.arrow_duration
                  (.pair (.px 0) (.px 0)) with
                | (st2, none) => finish_run (steps ++ [.arrowOverlay]) st2
                | (_, some e) => ⟨steps, .error (.buildError e)⟩
      | _, _ => finish_run steps st

/-! ## Invariant: every arrow overlay `main` creates is positioned at
`(0, 0)` and is canvas-sized. -/

def arrows_forced (st : BuilderState F) : Prop :=
  ∀ o ∈ st.overlay_clips, ∀ a, o.kind = .arrowK a →
    o.position = .pair (.px 0) (.px 0) ∧ o.clipSize = st.size

theorem arrows_forced_of_same (st st' : BuilderState F)
    (hov : st'.overlay_clips = st.overlay_clips) (hsz : st'.size = st.size)
    (h : arrows_forced st) : arrows_forced st' := by
  intro o ho a hk
  rw [hov] at ho
  rw [hsz]
  exact h o ho a hk

theorem add_text_screen_forced (ops : RasterOps F) (st : BuilderState F)
    (text : String) (d : ℚ) (fs : ℤ) (c bg : Color) (h : arrows_forced st) :
    arrows_forced (add_text_screen ops st text d fs c bg) :=
  arrows_forced_of_same st _ rfl rfl h

theorem add_clip_forced (ops : RasterOps F) (env : MediaEnv F)
    (st st' : BuilderState F) (p : String) (s : ℚ) (e : Option ℚ)
    (fi fo : ℚ) (bg : Color) (err : Option BuildError)
    (happ : add_clip ops env st p s e fi fo bg = (st', err))
    (h : arrows_forced st) : arrows_forced st' := by
  simp only [add_clip] at happ
  cases henv : env p with
  | none =>
      rw [henv] at happ
      injection happ with h1 h2
      rw [← h1]
      exact h
  | some base =>
      rw [henv] at happ
      injection happ with h1 h2
      exact arrows_forced_of_same st st' (by rw [← h1]) (by rw [← h1]) h

theorem add_freeze_frame_forced (ops : RasterOps F) (st st' : BuilderState F)
    (d a : ℚ) (err : Option BuildError)
    (happ : add_freeze_frame ops st d a = (st', err))
    (h : arrows_forced st) : arrows_forced st' := by
  simp only [add_freeze_frame] at happ
  cases hlast : st.timeline_clips.getLast? with
  | none =>
      rw [hlast] at happ
      injection happ with h1 h2
      rw [← h1]
      exact h
  | some prev =>
      rw [hlast] at happ
      injection happ with h1 h2
      exact arrows_forced_of_same st st' (by rw [← h1]) (by rw [← h1]) h

theorem add_overlay_text_forced (ops : RasterOps F) (st st' : BuilderState F)
    (tx : Text) (s d : ℚ) (pos : Position) (err : Option BuildError)
    (happ : add_overlay ops st (.textObj tx) s d pos = (st', err))
    (h : arrows_forced st) : arrows_forced st' := by
  simp only [add_overlay] at happ
  injection happ with h1 h2
  intro o ho a hk
  rw [← h1] at ho ⊢
  rcases List.mem_append.mp ho with hmem | hmem
  · exact h o hmem a hk
  · simp at hmem
    rw [hmem] at hk
    exact absurd hk (by simp)

theorem add_overlay_arrow_forced (ops : RasterOps F) (st st' : BuilderState F)
    (ar : Arrow) (s d : ℚ) (err : Option BuildError)
    (happ : add_overlay ops st (.arrowObj ar) s d (.pair (.px 0) (.px 0)) = (st', err))
    (h : arrows_forced st) : arrows_forced st' := by
  simp only [add_overlay] at happ
  injection happ with h1 h2
  intro o ho a hk
  rw [← h1] at ho ⊢
  rcases List.mem_append.mp ho with hmem | hmem
  · exact h o hmem a hk
  · simp at hmem
    rw [hmem]
    exact ⟨rfl, rfl⟩

theorem step_run_preserves (P : BuilderState F → Prop) (cond : Bool)
    (tag : StepTag) (f : BuilderState F → BuilderState F × Option BuildError)
    (acc : List StepTag × Except MainError (BuilderState F))
    (hf : ∀ st st' e, P st → f st = (st', e) → P st')
    (hacc : ∀ st, acc.2 = .ok st → P st) :
    ∀ st', (step_run cond tag f acc).2 = .ok st' → P st' := by
  intro st' hres
  rcases acc with ⟨steps, r⟩
  cases r with
  | error e => exact absurd hres (by simp [step_run])
  | ok st =>
      simp only [step_run] at hres
      by_cases hc : cond
      · rw [if_pos hc] at hres
        cases hfst : f st with
        | mk st1 err =>
            rw [hfst] at hres
            cases err with
            | none =>
                simp at hres
                rw [← hres]
                exact hf st st1 none (hacc st rfl) hfst
            | some e => simp at hres
      · rw [if_neg hc] at hres
        simp at hres
        rw [← hres]
        exact hacc st rfl

theorem main_pre_arrow_forced (ops : RasterOps F) (env : MediaEnv F)
    (args : Args) (st : BuilderState F)
    (h : (main_pre_arrow ops env args).2 = .ok st) : arrows_forced st := by
  unfold main_pre_arrow at h
  refine step_run_preserves _ _ _ _ _ ?_ ?_ st h
  · intro st1 st1' e1 hp hf
    exact add_overlay_text_forced ops st1 st1' _ _ _ _ e1 hf hp
  intro st1 h1
  refine step_run_preserves _ _ _ _ _ ?_ ?_ st1 h1
  · intro st2 st2' e2 hp hf
    exact add_freeze_frame_forced ops st2 st2' _ _ e2 hf hp
  intro st2 h2
  refine step_run_preserves _ _ _ _ _ ?_ ?_ st2 h2
  · intro st3 st3' e3 hp hf
    exact add_clip_forced ops env st3 st3' _ _ _ _ _ _ e3 hf hp
  intro st3 h3
  refine step_run_preserves _ _ _ _ _ ?_ ?_ st3 h3
  · intro st4 st4' e4 hp hf
    injection hf with hf1 hf2
    rw [← hf1]
    exact add_text_screen_forced ops st4 _ _ _ _ _ hp
  intro st4 h4
  simp at h4
  rw [← h4]
  intro o ho a hk
  exact absurd ho (by simp [init_state])

theorem finish_run_state (steps : List StepTag) (st st' : BuilderState F)
    (out : Option (RenderOutput F))
    (h : (finish_run steps st).outcome = .ok (st', out)) : st' = st := by
  simp only [finish_run, render] at h
  by_cases he : st.timeline_clips.isEmpty
  · rw [if_pos he] at h
    simp at h
    exact h.1.symm
  · rw [if_neg he] at h
    simp at h
    exact h.1.symm

theorem run_main_forced (ops : RasterOps F) (env : MediaEnv F) (args : Args)
    (st : BuilderState F) (out : Option (RenderOutput F))
    (h : (run_main ops env args).outcome = .ok (st, out)) : arrows_forced st := by
  unfold run_main at h
  cases hpre : main_pre_arrow ops env args with
  | mk steps r =>
      rw [hpre] at h
      cases r with
      | error e => exact absurd h (by simp)
      | ok st1 =>
          have hforce1 : arrows_forced st1 :=
            main_pre_arrow_forced ops env args st1 (by rw [hpre])
          cases harr : args.arrow with
          | none =>
              rw [harr] at h
              rw [finish_run_state steps st1 st out h]
              exact hforce1
          | some astr =>
              cases hstart : args.arrow_start with
              | none =>
                  rw [harr, hstart] at h
                  rw [finish_run_state steps st1 st out h]
                  exact hforce1
              | some astart =>
                  rw [harr, hstart] at h
                  dsimp only at h
                  by_cases hemp : astr.isEmpty
                  · rw [if_pos hemp] at h
                    rw [finish_run_state steps st1 st out h]
                    exact hforce1
                  · rw [if_neg hemp] at h
                    cases hpa : parse_arrow astr with
                    | error m =>
                        rw [hpa] at h
                        exact absurd h (by simp)
                    | ok pts =>
                        rw [hpa] at h
                        rcases pts with ⟨p1, p2⟩
                        dsimp only at h
                        cases hao : add_overlay ops st1
                          (.arrowObj { start_pos := p1, end_pos := p2,
                                       color := .named args.arrow_color,
                                       stroke_width := args.arrow_width,
                                       head_length := 24, head_angle_deg := 30 })
                          astart args.arrow_duration
                          (.pair (.px 0) (.px 0)) with
                        | mk st2 err =>
                            rw [hao] at h
                            cases err with
                            | none =>
                                have hforce2 : arrows_forced st2 :=
                                  add_overlay_arrow_forced ops st1 st2 _ _ _ none hao hforce1
                                rw [finish_run_state _ st2 st out h]
                                exact hforce2
                            | some e => exact absurd h (by simp)

/-! ## Concrete instances used by the claim witnesses -/

def unitOps : RasterOps Unit :=
  { textScreenImage := fun _ _ _ _ _ => (),
    measureText := fun _ _ => ⟨0, 0, 0, 0⟩,
    tightTextImage := fun _ _ _ _ => (),
    arrowImage := fun _ _ => (),
    resizeFrame := fun _ _ => (),
    composeLB := fun _ _ _ _ _ => (),
    fadeInF := fun _ _ _ => (),
    fadeOutF := fun _ _ _ _ => () }

def emptyEnv : MediaEnv Unit := fun _ => none

/-! ## Claims -/

/-- Claim C1: for a source of size `(cw, ch)` and a target `(tw, th)`, the
letterbox resizer computes `scale = min(tw/cw, th/ch)` and new size
`(round(cw*scale), round(ch*scale))`; if the scaled size equals the target
it returns the resized content unchanged, otherwise it composites it
centered on an opaque background of the target size at offset
`((tw-nw)/2, (th-nh)/2)` with integer truncation; the result size is
exactly `(tw, th)` (and the scaled size never exceeds the target). -/
theorem claim_C1_letterbox (cw ch tw th : ℤ) (hcw : 0 < cw) (hch : 0 < ch) :
    lb_new_w cw ch tw th ≤ tw ∧ lb_new_h cw ch tw th ≤ th ∧
    (letterbox cw ch tw th).outSize = (tw, th) ∧
    (lb_new_w cw ch tw th = tw ∧ lb_new_h cw ch tw th = th →
      letterbox cw ch tw th = .plain tw th) ∧
    (¬(lb_new_w cw ch tw th = tw ∧ lb_new_h cw ch tw th = th) →
      letterbox cw ch tw th =
        .boxed tw th (lb_new_w cw ch tw th) (lb_new_h cw ch tw th)
          (Int.tdiv (tw - lb_new_w cw ch tw th) 2)
          (Int.tdiv (th - lb_new_h cw ch tw th) 2)) := by
  refine ⟨lb_new_w_le cw ch tw th hcw hch, lb_new_h_le cw ch tw th hcw hch,
    letterbox_outSize cw ch tw th, ?_, ?_⟩
  · rintro ⟨h1, h2⟩
    simp only [letterbox]
    rw [if_pos ⟨h1, h2⟩, h1, h2]
  · intro hne
    simp only [letterbox]
    rw [if_neg hne]

theorem claim_C1_letterbox_witness :
    lb_new_w 640 480 1920 1080 ≤ 1920 ∧ lb_new_h 640 480 1920 1080 ≤ 1080 ∧
    (letterbox 640 480 1920 1080).outSize = (1920, 1080) ∧
    (lb_new_w 640 480 1920 1080 = 1920 ∧ lb_new_h 640 480 1920 1080 = 1080 →
      letterbox 640 480 1920 1080 = .plain 1920 1080) ∧
    (¬(lb_new_w 640 480 1920 1080 = 1920 ∧ lb_new_h 640 480 1920 1080 = 1080) →
      letterbox 640 480 1920 1080 =
        .boxed 1920 1080 (lb_new_w 640 480 1920 1080) (lb_new_h 640 480 1920 1080)
          (Int.tdiv (1920 - lb_new_w 640 480 1920 1080) 2)
          (Int.tdiv (1080 - lb_new_h 640 480 1920 1080) 2)) :=
  claim_C1_letterbox 640 480 1920 1080 (by norm_num) (by norm_num)

/-- Claim C2: after any sequence of append operations that completes
without error, the timeline only grew at the end, the concatenated
timeline's total duration is the exact sum of all entry durations, and
entry `i` plays exactly during its window (append order). -/
theorem claim_C2_append_order_duration (F : Type) (ops : RasterOps F)
    (env : MediaEnv F) (bops : List BuildOp) (st₀ st : BuilderState F)
    (happ : apply_ops ops env bops st₀ = (st, none))
    (hnn : ∀ e ∈ st.timeline_clips, 0 ≤ e.duration) :
    (∃ rest, st.timeline_clips = st₀.timeline_clips ++ rest) ∧
    concat_duration st.timeline_clips =
      (st.timeline_clips.map (fun e => e.duration)).sum ∧
    ∀ i (hi : i < st.timeline_clips.length) (t : ℚ),
      start_at st.timeline_clips i ≤ t →
      t < start_at st.timeline_clips i + (st.timeline_clips.get ⟨i, hi⟩).duration →
      concat_frame_at st.timeline_clips t =
        some ((st.timeline_clips.get ⟨i, hi⟩).frameAt
          (t - start_at st.timeline_clips i)) := by
  refine ⟨apply_ops_extends ops env bops st₀ st happ,
    concat_duration_eq_sum st.timeline_clips, ?_⟩
  intro i hi t h1 h2
  exact concat_window st.timeline_clips hnn i hi t h1 h2

def c2_ops_list : List BuildOp :=
  [.textScreenOp "Intro" 2 70 (.named "white") (.named "black"),
   .textScreenOp "End" 3 70 (.named "white") (.named "black")]

def c2_st0 : BuilderState Unit := init_state Unit "out.mp4" (1920, 1080) 30

def c2_entry1 : VClip Unit :=
  { size := (1920, 1080), duration := 2, frameAt := fun _ => (),
    src := .textScreen "Intro" }

def c2_entry2 : VClip Unit :=
  { size := (1920, 1080), duration := 3, frameAt := fun _ => (),
    src := .textScreen "End" }

def c2_st : BuilderState Unit :=
  { output_path := "out.mp4", size := (1920, 1080), fps := 30,
    timeline_clips := [c2_entry1, c2_entry2], overlay_clips := [] }

theorem claim_C2_append_order_duration_witness :
    (∃ rest, c2_st.timeline_clips = c2_st0.timeline_clips ++ rest) ∧
    concat_duration c2_st.timeline_clips =
      (c2_st.timeline_clips.map (fun e => e.duration)).sum ∧
    ∀ i (hi : i < c2_st.timeline_clips.length) (t : ℚ),
      start_at c2_st.timeline_clips i ≤ t →
      t < start_at c2_st.timeline_clips i + (c2_st.timeline_clips.get ⟨i, hi⟩).duration →
      concat_frame_at c2_st.timeline_clips t =
        some ((c2_st.timeline_clips.get ⟨i, hi⟩).frameAt
          (t - start_at c2_st.timeline_clips i)) :=
  claim_C2_append_order_duration Unit unitOps emptyEnv c2_ops_list c2_st0 c2_st
    rfl
    (by
      intro e he
      simp only [c2_st, List.mem_cons, List.not_mem_nil, or_false] at he
      rcases he with rfl | rfl
      · norm_num [c2_entry1]
      · norm_num [c2_entry2])

/-- Claim C3: on a non-empty timeline, `add_freeze_frame` samples exactly
one frame of the immediately preceding entry at time
`clamp(at_time, 0, prev.duration - ε)` (ε = 1/1000), and appends that
frame held as a still of the requested duration, conformed to canvas
size. -/
theorem claim_C3_freeze_frame (F : Type) (ops : RasterOps F)
    (st : BuilderState F) (prev : VClip F) (duration at_time : ℚ)
    (hlast : st.timeline_clips.getLast? = some prev) :
    ∃ e, add_freeze_frame ops st duration at_time =
        ({ st with timeline_clips := st.timeline_clips ++ [e] }, none) ∧
      e.duration = duration ∧
      e.size = st.size ∧
      e.src = .freezeOf (prev.frameAt (clampQ at_time 0 (prev.duration - 1 / 1000))) ∧
      ∀ t t', e.frameAt t = e.frameAt t' := by
  refine ⟨resize_and_letterbox ops
    { size := prev.size, duration := duration,
      frameAt := fun _ =>
        prev.frameAt (max 0 (min at_time (max 0 (prev.duration - 1 / 1000)))),
      src := .freezeOf
        (prev.frameAt (max 0 (min at_time (max 0 (prev.duration - 1 / 1000))))) }
    st.size (Color.rgb 0 0 0), ?_, ?_, ?_, ?_, ?_⟩
  · simp only [add_freeze_frame, hlast]
  · rw [resize_and_letterbox_duration]
  · rw [resize_and_letterbox_size]
  · rw [resize_and_letterbox_src, freeze_sample_eq_clamp]
  · intro t t'
    exact resize_and_letterbox_still ops _ st.size (Color.rgb 0 0 0)
      (fun _ _ => rfl) t t'

def c3_prev : VClip Unit :=
  { size := (1920, 1080), duration := 4, frameAt := fun _ => (),
    src := .textScreen "hi" }

def c3_st : BuilderState Unit :=
  { output_path := "out.mp4", size := (1920, 1080), fps := 30,
    timeline_clips := [c3_prev], overlay_clips := [] }

theorem claim_C3_freeze_frame_witness :
    ∃ e, add_freeze_frame unitOps c3_st 3 5 =
        ({ c3_st with timeline_clips := c3_st.timeline_clips ++ [e] }, none) ∧
      e.duration = 3 ∧
      e.size = c3_st.size ∧
      e.src = .freezeOf (c3_prev.frameAt (clampQ 5 0 (c3_prev.duration - 1 / 1000))) ∧
      ∀ t t', e.frameAt t = e.frameAt t' :=
  claim_C3_freeze_frame Unit unitOps c3_st c3_prev 3 5 rfl

/-- Claim C4: `add_freeze_frame` on an empty timeline fails with the
empty-timeline error and leaves the builder state (both lists) unchanged. -/
theorem claim_C4_freeze_empty (F : Type) (ops : RasterOps F)
    (st : BuilderState F) (duration at_time : ℚ)
    (h : st.timeline_clips = []) :
    add_freeze_frame ops st duration at_time = (st, some .emptyTimelineError) := by
  unfold add_freeze_frame
  rw [h]
  rfl

theorem claim_C4_freeze_empty_witness :
    add_freeze_frame unitOps (init_state Unit "output.mp4" (1920, 1080) 30) 2 1 =
      (init_state Unit "output.mp4" (1920, 1080) 30, some .emptyTimelineError) :=
  claim_C4_freeze_empty Unit unitOps _ 2 1 rfl

/-- The horizontal rightward arrow `start=(0,0)`, `end=(100,0)` of the
spec's example (all other parameters at their defaults). -/
def horiz_arrow : Arrow := { start_pos := (0, 0), end_pos := (100, 0) }

/-- Claim C5: the arrow generator draws the shaft between the two points
and an arrowhead triangle anchored at `end_pos` whose other two vertices
are `end + head_length * (cos(angle + π ∓ θ), sin(angle + π ∓ θ))` with
`angle = atan2(dy, dx)` and `θ = head_angle_deg` in radians; the
horizontal rightward arrow `(0,0) → (100,0)` has heading angle `0` and
its head vertices lie symmetrically above and below the shaft at the end
point. -/
theorem claim_C5_arrow_geometry :
    (∀ a : Arrow, arrow_draw_cmds a =
      [DrawCmd.lineCmd a.start_pos a.end_pos a.color a.stroke_width,
       DrawCmd.polygonCmd
         [a.end_pos,
          (pyTrunc ((a.end_pos.1 : ℝ) + (a.head_length : ℝ) *
              Real.cos (a.angle + Real.pi - a.theta)),
           pyTrunc ((a.end_pos.2 : ℝ) + (a.head_length : ℝ) *
              Real.sin (a.angle + Real.pi - a.theta))),
          (pyTrunc ((a.end_pos.1 : ℝ) + (a.head_length : ℝ) *
              Real.cos (a.angle + Real.pi + a.theta)),
           pyTrunc ((a.end_pos.2 : ℝ) + (a.head_length : ℝ) *
              Real.sin (a.angle + Real.pi + a.theta)))]
         a.color]) ∧
    horiz_arrow.angle = 0 ∧
    horiz_arrow.left_point.1 = horiz_arrow.right_point.1 ∧
    horiz_arrow.left_point.2 = 12 ∧
    horiz_arrow.right_point.2 = -12 := by
  have hangle : horiz_arrow.angle = 0 := by
    unfold Arrow.angle Arrow.dx Arrow.dy atan2 horiz_arrow
    norm_num [Real.arctan_zero]
  have htheta : horiz_arrow.theta = Real.pi / 6 := by
    unfold Arrow.theta horiz_arrow
    push_cast
    ring
  have hcos : Real.cos (Arrow.left_angle horiz_arrow) =
      Real.cos (Arrow.right_angle horiz_arrow) := by
    unfold Arrow.left_angle Arrow.right_angle
    rw [hangle, zero_add, Real.cos_pi_sub, Real.cos_add, Real.cos_pi, Real.sin_pi]
    ring
  have hsinL : Real.sin (Arrow.left_angle horiz_arrow) = 1 / 2 := by
    unfold Arrow.left_angle
    rw [hangle, htheta, zero_add, Real.sin_pi_sub, Real.sin_pi_div_six]
  have hsinR : Real.sin (Arrow.right_angle horiz_arrow) = -(1 / 2) := by
    unfold Arrow.right_angle
    rw [hangle, htheta, zero_add, Real.sin_add, Real.sin_pi, Real.cos_pi,
      Real.sin_pi_div_six]
    ring
  refine ⟨fun a => rfl, hangle, ?_, ?_, ?_⟩
  · unfold Arrow.left_point Arrow.right_point
    dsimp only
    rw [hcos]
  · unfold Arrow.left_point
    dsimp only
    rw [hsinL]
    have h12 : ((horiz_arrow.end_pos.2 : ℝ) +
        (horiz_arrow.head_length : ℝ) * (1 / 2)) = 12 := by
      norm_num [horiz_arrow]
    rw [h12]
    unfold pyTrunc
    rw [if_pos (by norm_num)]
    norm_num
  · unfold Arrow.right_point
    dsimp only
    rw [hsinR]
    have h12 : ((horiz_arrow.end_pos.2 : ℝ) +
        (horiz_arrow.head_length : ℝ) * -(1 / 2)) = -12 := by
      norm_num [horiz_arrow]
    rw [h12]
    unfold pyTrunc
    rw [if_neg (by norm_num)]
    norm_num

/-- Claim C6: rendering with zero timeline entries is a soft no-op:
no error is raised and no output is produced, however many overlays have
been added. -/
theorem claim_C6_render_empty (F : Type) (st : BuilderState F)
    (h : st.timeline_clips = []) : render st = .ok none := by
  unfold render
  rw [h]
  rfl

def c6_st : BuilderState Unit :=
  { output_path := "o.mp4", size := (1280, 720), fps := 30,
    timeline_clips := [],
    overlay_clips :=
      [{ kind := .textK { text := "Note" }, frame := (), clipSize := (17, 17),
         start_time := 4, duration := 2, position := .pair .center (.px 600) },
       { kind := .arrowK horiz_arrow, frame := (), clipSize := (1280, 720),
         start_time := 1, duration := 4, position := .pair (.px 0) (.px 0) }] }

theorem claim_C6_render_empty_witness : render c6_st = .ok none :=
  claim_C6_render_empty Unit c6_st rfl

/-- Claim C7: `add_overlay` with content that is neither a recognized
text nor arrow artifact fails with the unsupported-overlay-type error and
leaves the builder state (timeline and overlay lists) unchanged. -/
theorem claim_C7_unsupported_overlay (F : Type) (ops : RasterOps F)
    (st : BuilderState F) (start_time duration : ℚ) (position : Position) :
    add_overlay ops st .otherObj start_time duration position =
      (st, some .unsupportedOverlayTypeError) := rfl

/-! ## Claim C8: malformed arrow coordinates -/

theorem step_run_steps_subset (cond : Bool) (tag : StepTag)
    (f : BuilderState F → BuilderState F × Option BuildError)
    (acc : List StepTag × Except MainError (BuilderState F)) :
    ∀ x ∈ (step_run cond tag f acc).1, x ∈ acc.1 ∨ x = tag := by
  intro x hx
  rcases acc with ⟨steps, r⟩
  cases r with
  | error e => exact Or.inl hx
  | ok st =>
      simp only [step_run] at hx
      by_cases hc : cond
      · rw [if_pos hc] at hx
        cases hfst : f st with
        | mk st1 err =>
            rw [hfst] at hx
            cases err with
            | none =>
                simp only at hx
                rcases List.mem_append.mp hx with hmem | hmem
                · exact Or.inl hmem
                · exact Or.inr (List.mem_singleton.mp hmem)
            | some e => exact Or.inl hx
      · rw [if_neg hc] at hx
        exact Or.inl hx

theorem main_pre_arrow_no_arrow_tag (ops : RasterOps F) (env : MediaEnv F)
    (args : Args) : StepTag.arrowOverlay ∉ (main_pre_arrow ops env args).1 := by
  unfold main_pre_arrow
  intro hmem
  rcases step_run_steps_subset _ _ _ _ _ hmem with h | h
  rotate_left
  · exact absurd h (by decide)
  rcases step_run_steps_subset _ _ _ _ _ h with h2 | h2
  rotate_left
  · exact absurd h2 (by decide)
  rcases step_run_steps_subset _ _ _ _ _ h2 with h3 | h3
  rotate_left
  · exact absurd h3 (by decide)
  rcases step_run_steps_subset _ _ _ _ _ h3 with h4 | h4
  rotate_left
  · exact absurd h4 (by decide)
  exact absurd h4 (by simp)

/-- The CLI arguments of the counterexample run: a title text plus a
malformed `--arrow 1,2` with `--arrow-start 0`. -/
def c8_cex_args_a : Args :=
  { text := some "T", arrow := some "1,2", arrow_start := some 0 }

/-- A malformed `--arrow 1,2` with no `--arrow-start`. -/
def c8_cex_args_b : Args := { arrow := some "1,2", arrow_start := none }

def exceptIsOk (r : Except MainError (BuilderState Unit × Option (RenderOutput Unit))) :
    Bool :=
  match r with
  | .ok _ => true
  | .error _ => false

/-- Claim C8 counterexample: with `--text T --arrow 1,2 --arrow-start 0`
the run does terminate with the hard parse error, but only after the
title-screen build step has already executed (the step trace is
non-empty), contradicting "before any build step is executed"; and with
`--arrow 1,2` but no `--arrow-start`, the malformed arrow argument is
never parsed and the run finishes without any error at all. -/
theorem claim_C8_counterexample :
    ((run_main unitOps emptyEnv c8_cex_args_a).steps = [StepTag.textScreen] ∧
     (run_main unitOps emptyEnv c8_cex_args_a).outcome =
       .error (.parseError "--arrow must be in the form x1,y1,x2,y2")) ∧
    exceptIsOk (run_main unitOps emptyEnv c8_cex_args_b).outcome = true :=
  ⟨⟨rfl, rfl⟩, rfl⟩

/-- Claim C8 (amended): when a malformed `--arrow` is supplied together
with `--arrow-start` and the build steps before the arrow block succeed,
the run terminates with the hard parse error; the arrow overlay is never
added, the run produces no output (the outcome is an error, and render is
never reached), but the build steps preceding the arrow parse have
already executed. -/
theorem claim_C8_parse_arrow_aborts (F : Type) (ops : RasterOps F)
    (env : MediaEnv F) (args : Args) (astr : String) (astart : ℚ)
    (steps : List StepTag) (st : BuilderState F)
    (harr : args.arrow = some astr) (hne : astr.isEmpty = false)
    (hstart : args.arrow_start = some astart)
    (hmal : malformedArrow astr)
    (hpre : main_pre_arrow ops env args = (steps, .ok st)) :
    ∃ m, run_main ops env args = ⟨steps, .error (.parseError m)⟩ ∧
      StepTag.arrowOverlay ∉ steps ∧
      ∀ st' out, (run_main ops env args).outcome ≠ .ok (st', out) := by
  obtain ⟨m, hm⟩ := parse_arrow_error_of_malformed astr hmal
  have hrun : run_main ops env args = ⟨steps, .error (.parseError m)⟩ := by
    unfold run_main
    rw [hpre, harr, hstart]
    dsimp only
    rw [if_neg (by simp [hne]), hm]
  have hnotag : StepTag.arrowOverlay ∉ steps := by
    have := main_pre_arrow_no_arrow_tag ops env args
    rw [hpre] at this
    exact this
  refine ⟨m, hrun, hnotag, ?_⟩
  intro st' out
  rw [hrun]
  simp

def c8_w_args : Args := { arrow := some "1,2", arrow_start := some 0 }

def c8_w_st0 : BuilderState Unit := init_state Unit "output.mp4" (1920, 1080) 30

theorem claim_C8_parse_arrow_aborts_witness :
    ∃ m, run_main unitOps emptyEnv c8_w_args = ⟨[], .error (.parseError m)⟩ ∧
      StepTag.arrowOverlay ∉ ([] : List StepTag) ∧
      ∀ st' out, (run_main unitOps emptyEnv c8_w_args).outcome ≠ .ok (st', out) :=
  claim_C8_parse_arrow_aborts Unit unitOps emptyEnv c8_w_args "1,2" 0 [] c8_w_st0
    rfl rfl rfl (Or.inl (by decide)) rfl

/-- Claim C9: in any `main` run that completes, every overlay built from
an arrow has its position forced to `(0, 0)` (whatever `--overlay-position`
said), and its image is full-canvas-sized. -/
theorem claim_C9_arrow_position (F : Type) (ops : RasterOps F)
    (env : MediaEnv F) (args : Args) (st : BuilderState F)
    (out : Option (RenderOutput F))
    (h : (run_main ops env args).outcome = .ok (st, out)) :
    ∀ o ∈ st.overlay_clips, ∀ a, o.kind = .arrowK a →
      o.position = .pair (.px 0) (.px 0) ∧ o.clipSize = st.size :=
  run_main_forced ops env args st out h

def c9_args : Args := { arrow := some "0,0,100,0", arrow_start := some 1 }

def c9_arrow : Arrow :=
  { start_pos := (0, 0), end_pos := (100, 0), color := .named "yellow",
    stroke_width := 5, head_length := 24, head_angle_deg := 30 }

def c9_entry : OverlayEntry Unit :=
  { kind := .arrowK c9_arrow, frame := (), clipSize := (1920, 1080),
    start_time := 1, duration := 4, position := .pair (.px 0) (.px 0) }

def c9_st : BuilderState Unit :=
  { output_path := "output.mp4", size := (1920, 1080), fps := 30,
    timeline_clips := [], overlay_clips := [c9_entry] }

theorem claim_C9_arrow_position_witness :
    c9_entry.position = .pair (.px 0) (.px 0) ∧ c9_entry.clipSize = c9_st.size :=
  claim_C9_arrow_position Unit unitOps emptyEnv c9_args c9_st none rfl
    c9_entry (List.mem_singleton.mpr rfl) c9_arrow rfl

/-- Claim C10: for every text (via any measured bounding box, including
zero- or negative-sized ones) and every non-negative padding, the tight
overlay-text image size is at least `(1 + 2*padding, 1 + 2*padding)` on
each axis and is strictly positive, so image construction never receives
a zero or negative dimension. -/
theorem claim_C10_tight_text_min_size (measure : String → ℤ → BBox)
    (text : String) (fontsize padding : ℤ) (hp : 0 ≤ padding) :
    1 + 2 * padding ≤ (tight_text_size (measure text fontsize) padding).1 ∧
    1 + 2 * padding ≤ (tight_text_size (measure text fontsize) padding).2 ∧
    0 < (tight_text_size (measure text fontsize) padding).1 ∧
    0 < (tight_text_size (measure text fontsize) padding).2 := by
  have hw : (1 : ℤ) ≤ tight_text_w (measure text fontsize) :=
    le_max_left 1 _
  have hh : (1 : ℤ) ≤ tight_text_h (measure text fontsize) :=
    le_max_left 1 _
  dsimp only [tight_text_size]
  refine ⟨by linarith, by linarith, by linarith, by linarith⟩

theorem claim_C10_tight_text_min_size_witness :
    1 + 2 * 8 ≤ (tight_text_size ⟨0, 0, 0, 0⟩ 8).1 ∧
    1 + 2 * 8 ≤ (tight_text_size ⟨0, 0, 0, 0⟩ 8).2 ∧
    0 < (tight_text_size ⟨0, 0, 0, 0⟩ 8).1 ∧
    0 < (tight_text_size ⟨0, 0, 0, 0⟩ 8).2 :=
  claim_C10_tight_text_min_size (fun _ _ => ⟨0, 0, 0, 0⟩) "" 50 8 (by norm_num)

end KinoPy

